import Mathlib

/-!
Verification of the retrieval-augmented caching engine of the OpenBee
document-analysis backend.

The development shallowly embeds the JavaScript source:
* `calculateCosineSimilarity`, `findSimilarDocuments` (database module),
* `processDocumentWithRAG` (rag-service module),
* the RAG-enabled `resumer` path of the `POST /analyze` handler (server module).

JavaScript numbers are modelled as real numbers, fallible external calls
(MySQL, the Ollama embedding and generation endpoints) as `Except`-valued
fields of an `Env` record, and `try/catch` as explicit matching on those
`Except` values.  Every call the orchestrator makes to the outside world is
recorded in an `EffectTrace` so that frame conditions (what was, and was not,
touched) are provable.
-/

noncomputable section

/-- Error messages carried by JavaScript exceptions. -/
abbrev Err := String

/-! ## Data model, similarity search, orchestrator, and concrete environments -/

/-- A multer upload (`file` in the source): in-memory buffer plus metadata. -/
structure UploadedFile where
  originalname : String
  size : ℕ
  mimetype : String
  buffer : List ℕ

/-- A row of the `documents` table, as selected by `getDocumentByHash` and by
the similarity scan in `findSimilarDocuments`. -/
structure DocumentRecord where
  id : ℕ
  filename : String
  file_hash : String
  file_size : ℕ
  mime_type : String
  extracted_text : String
  ai_summary : String
  embedding : List ℝ
  embedding_model : String
  created_at : ℕ

/-- The record pushed onto `similarities` for each candidate above threshold
in `findSimilarDocuments`. -/
structure SimilarityResult where
  id : ℕ
  filename : String
  file_hash : String
  ai_summary : String
  created_at : ℕ
  similarity_score : ℝ

/-- The argument object of `insertDocument` (the fields bound by the INSERT). -/
structure NewDocument where
  filename : String
  file_hash : String
  file_size : ℕ
  mime_type : String
  extracted_text : String
  ai_summary : String
  embedding : List ℝ
  embedding_model : String

/-- `dotProduct` accumulator of the loop in `calculateCosineSimilarity`. -/
def dotList (vec1 vec2 : List ℝ) : ℝ :=
  (List.zipWith (fun a b => a * b) vec1 vec2).sum

/-- `magnitude1` / `magnitude2` accumulators of the same loop: the sum of
squares of the entries (the square root is only applied at the end). -/
def sumSq (vec : List ℝ) : ℝ :=
  (vec.map (fun a => a * a)).sum

/-- `calculateCosineSimilarity(vec1, vec2)` from the database module.
The `!Array.isArray(...)` part of the guard is vacuous in a typed embedding;
the length test and the zero-magnitude guard are kept as in the source. -/
def calculateCosineSimilarity (vec1 vec2 : List ℝ) : ℝ :=
  if vec1.length ≠ vec2.length then 0
  else if sumSq vec1 = 0 ∨ sumSq vec2 = 0 then 0
  else dotList vec1 vec2 / (Real.sqrt (sumSq vec1) * Real.sqrt (sumSq vec2))

/-- The comparator `(a, b) => b.similarity_score - a.similarity_score` passed
to `similarities.sort`: `a` may stay before `b` when `a`'s score is at least
`b`'s.  `Array.prototype.sort` is stable, so the call is modelled by stable
insertion sort under this relation. -/
def scoreGe (a b : SimilarityResult) : Prop :=
  b.similarity_score ≤ a.similarity_score

/-- The `ORDER BY created_at DESC` of the candidate query in
`findSimilarDocuments`. -/
def createdGe (a b : DocumentRecord) : Prop :=
  b.created_at ≤ a.created_at

instance : DecidableRel scoreGe := fun _ _ => Real.decidableLE _ _

instance : DecidableRel createdGe := fun _ _ => Nat.decLe _ _

instance : IsTrans SimilarityResult scoreGe := ⟨fun _ _ _ h1 h2 => le_trans h2 h1⟩

instance : IsTotal SimilarityResult scoreGe := ⟨fun _ _ => le_total _ _⟩

instance : IsTrans DocumentRecord createdGe := ⟨fun _ _ _ h1 h2 => le_trans h2 h1⟩

instance : IsTotal DocumentRecord createdGe := ⟨fun _ _ => Nat.le_total _ _⟩

/-- `similarities.sort((a, b) => b.similarity_score - a.similarity_score)`. -/
def sortByScoreDesc (l : List SimilarityResult) : List SimilarityResult :=
  List.insertionSort scoreGe l

/-- The `ORDER BY created_at DESC` applied by the database to the candidate
rows. -/
def sortByCreatedDesc (l : List DocumentRecord) : List DocumentRecord :=
  List.insertionSort createdGe l

/-- The object literal pushed onto `similarities` for a candidate `doc`. -/
def toSimilarityResult (doc : DocumentRecord) (similarity : ℝ) : SimilarityResult :=
  ⟨doc.id, doc.filename, doc.file_hash, doc.ai_summary, doc.created_at, similarity⟩

/-- The candidate loop of `findSimilarDocuments`: push every candidate whose
similarity reaches `threshold`, and `break` as soon as one exceeds `0.95`. -/
def scanDocs (embedding : List ℝ) (threshold : ℝ) :
    List DocumentRecord → List SimilarityResult
  | [] => []
  | doc :: rest =>
    if threshold ≤ calculateCosineSimilarity embedding doc.embedding then
      if 0.95 < calculateCosineSimilarity embedding doc.embedding then
        [toSimilarityResult doc (calculateCosineSimilarity embedding doc.embedding)]
      else
        toSimilarityResult doc (calculateCosineSimilarity embedding doc.embedding) ::
          scanDocs embedding threshold rest
    else scanDocs embedding threshold rest

/-- Modelled from the spec: "a full scan over the same candidates" — the same
loop without the early-termination break; the reference point for the
early-exit refinement claim (C6). -/
def scanDocsFull (embedding : List ℝ) (threshold : ℝ) :
    List DocumentRecord → List SimilarityResult
  | [] => []
  | doc :: rest =>
    if threshold ≤ calculateCosineSimilarity embedding doc.embedding then
      toSimilarityResult doc (calculateCosineSimilarity embedding doc.embedding) ::
        scanDocsFull embedding threshold rest
    else scanDocsFull embedding threshold rest

/-- The external world as seen by the orchestrator: process configuration and
the fallible MySQL / Ollama calls. -/
structure Env where
  /-- `process.env.RAG_ENABLED === 'true'`. -/
  ragEnabled : Bool
  /-- `generateFileHash`: SHA-256 hex digest of the raw upload buffer. -/
  generateFileHash : List ℕ → String
  /-- `getDocumentByHash`: a missing row is `none`; a thrown DB error is `.error`. -/
  getDocumentByHash : String → Except Err (Option DocumentRecord)
  /-- `generateEmbedding` (Ollama embeddings endpoint); throws on failure. -/
  generateEmbedding : String → Except Err (List ℝ)
  /-- `getRagSetting('similarity_threshold')` composed with `parseFloat`. -/
  getRagSettingThreshold : Except Err (Option ℝ)
  /-- `getRagSetting('max_similar_documents')` composed with `parseInt`. -/
  getRagSettingMaxDocs : Except Err (Option ℕ)
  /-- The rows of the `documents` table (the `SELECT` in `findSimilarDocuments`
  before its `ORDER BY created_at DESC`, which `findSimilarDocuments` applies). -/
  getAllDocuments : Except Err (List DocumentRecord)
  /-- `insertDocument`: returns the new row id, or the DB rejection (e.g. the
  unique-constraint violation on `file_hash`). -/
  insertDocument : NewDocument → Except Err ℕ
  /-- `summarizeLongText` with the configured PDF model: the generation
  capability invoked by the `/analyze` handler. -/
  summarizeLongText : String → Except Err String
  /-- `SIMILARITY_THRESHOLD` (default `0.85`). -/
  SIMILARITY_THRESHOLD : ℝ
  /-- `MAX_SIMILAR_DOCUMENTS` (default `5`). -/
  MAX_SIMILAR_DOCUMENTS : ℕ
  /-- `EMBEDDING_MODEL` (default `'nomic-embed-text'`). -/
  EMBEDDING_MODEL : String

/-- The straight-line body of `findSimilarDocuments` once the candidate rows
are in hand: scan (newest first), sort by score, slice to `limit`. -/
def findSimilarCore (embedding : List ℝ) (threshold : ℝ) (limit : ℕ)
    (docs : List DocumentRecord) : List SimilarityResult :=
  (sortByScoreDesc (scanDocs embedding threshold (sortByCreatedDesc docs))).take limit

/-- `findSimilarDocuments(embedding, threshold, limit)`: the catch-all returns
`[]` on a DB error, and `if (!allDocs || allDocs.length === 0)` returns `[]`. -/
def findSimilarDocuments (env : Env) (embedding : List ℝ) (threshold : ℝ)
    (limit : ℕ) : List SimilarityResult :=
  match env.getAllDocuments with
  | .error _ => []
  | .ok docs =>
    if docs.isEmpty then []
    else findSimilarCore embedding threshold limit docs

/-- A stored record whose embedding has dimension 2, used to exercise the
mismatched-dimension path against a 1-dimensional query. -/
def docC5 : DocumentRecord :=
  ⟨1, "a.pdf", "hash-a", 10, "application/pdf", "text a", "summary a", [1, 1], "m", 5⟩

/-- Environment whose store holds only `docC5`. -/
def envC5 : Env :=
  ⟨true, fun _ => "h", fun _ => .ok none, fun _ => .ok [1], .ok none, .ok none,
    .ok [docC5], fun _ => .ok 1, fun _ => .ok "s", 0.85, 5, "m"⟩

/-- Environment with an empty store, used to instantiate hypotheses of the
similarity-search theorems. -/
def envC6 : Env :=
  ⟨true, fun _ => "h", fun _ => .ok none, fun _ => .ok [1], .ok none, .ok none,
    .ok [], fun _ => .ok 1, fun _ => .ok "s", 0.85, 5, "m"⟩

/-- The composite order enforced by the stable score sort on a newest-first
input: descending score, and descending recency on exact score ties. -/
def scoreThenCreated (a b : SimilarityResult) : Prop :=
  b.similarity_score ≤ a.similarity_score ∧
    (a.similarity_score ≤ b.similarity_score → b.created_at ≤ a.created_at)

/-- A record of the calls the orchestrator made to the outside world during
one invocation.  `insertedDocs` lists the arguments of the `insertDocument`
calls that succeeded (rows actually added); `insertCalls` counts attempts. -/
structure EffectTrace where
  lookupCalls : ℕ := 0
  embedCalls : ℕ := 0
  scanCalls : ℕ := 0
  insertCalls : ℕ := 0
  insertedDocs : List NewDocument := []
  generateCalls : ℕ := 0

/-- The `matchedDocument` object of the exact-match return value. -/
structure MatchedDocument where
  id : ℕ
  filename : String
  created_at : ℕ

/-- The `bestMatch` object of the similar-match return value. -/
structure BestMatch where
  filename : String
  similarity_score : ℝ
  created_at : ℕ

/-- The union of the result objects `processDocumentWithRAG` can return;
fields a given branch does not set are `none` (JavaScript `undefined`). -/
structure RagResult where
  isFromRAG : Bool
  aiSummary : Option String
  similarDocuments : List SimilarityResult
  exactMatch : Option Bool := none
  matchedDocument : Option MatchedDocument := none
  bestMatch : Option BestMatch := none
  fileHash : Option String := none
  embedding : Option (List ℝ) := none
  needsAiGeneration : Option Bool := none
  newDocumentId : Option ℕ := none
  error : Option Err := none

/-- The value built in the `catch` block of `processDocumentWithRAG`:
"RAG failed, falling back to normal processing". -/
def fallbackRagResult (aiSummary : Option String) (e : Err) : RagResult :=
  { isFromRAG := false, aiSummary := aiSummary, similarDocuments := [], error := some e }

/-- Step 6 of `processDocumentWithRAG` ("No similar document found"): either
signal `needsAiGeneration` (the optimization path taken when no summary was
supplied) or store the new document with the supplied summary. -/
def processNoMatchPhase (env : Env) (file : UploadedFile) (extractedText : String)
    (aiSummary : Option String) (embedding : List ℝ) (fileHash : String)
    (similarDocs : List SimilarityResult) : RagResult × EffectTrace :=
  match aiSummary with
  | none =>
    ({ isFromRAG := false, aiSummary := none, similarDocuments := similarDocs,
       exactMatch := some false, fileHash := some fileHash,
       embedding := some embedding, needsAiGeneration := some true },
     { lookupCalls := 1, embedCalls := 1, scanCalls := 1 })
  | some summary =>
    match env.insertDocument ⟨file.originalname, fileHash, file.size, file.mimetype,
        extractedText, summary, embedding, env.EMBEDDING_MODEL⟩ with
    | .error e =>
      (fallbackRagResult aiSummary e,
       { lookupCalls := 1, embedCalls := 1, scanCalls := 1, insertCalls := 1 })
    | .ok documentId =>
      ({ isFromRAG := false, aiSummary := some summary,
         similarDocuments := similarDocs, exactMatch := some false,
         newDocumentId := some documentId },
       { lookupCalls := 1, embedCalls := 1, scanCalls := 1, insertCalls := 1,
         insertedDocs := [⟨file.originalname, fileHash, file.size, file.mimetype,
           extractedText, summary, embedding, env.EMBEDDING_MODEL⟩] })

/-- Steps 4–6 of `processDocumentWithRAG`: similarity search, the
similar-match decision, and storage.  The source guard
`useExistingSummary && similarDocs.length > 0` — where `highestSimilarity` is
the head's score, `0` when the list is empty — holds exactly when the
candidate list is nonempty and its head reaches the threshold, which is how
the decision is written here. -/
def processSimilarityPhase (env : Env) (file : UploadedFile) (extractedText : String)
    (aiSummary : Option String) (embedding : List ℝ) (fileHash : String)
    (threshold : ℝ) (maxDocs : ℕ) : RagResult × EffectTrace :=
  match findSimilarDocuments env embedding threshold maxDocs with
  | bestMatch :: rest =>
    if threshold ≤ bestMatch.similarity_score then
      match env.insertDocument ⟨file.originalname, fileHash, file.size, file.mimetype,
          extractedText,
          "[Similar to: " ++ bestMatch.filename ++ "]" ++ "\n\n" ++ bestMatch.ai_summary,
          embedding, env.EMBEDDING_MODEL⟩ with
      | .error e =>
        (fallbackRagResult aiSummary e,
         { lookupCalls := 1, embedCalls := 1, scanCalls := 1, insertCalls := 1 })
      | .ok _ =>
        ({ isFromRAG := true, aiSummary := some bestMatch.ai_summary,
           similarDocuments := bestMatch :: rest, exactMatch := some false,
           bestMatch := some ⟨bestMatch.filename, bestMatch.similarity_score,
             bestMatch.created_at⟩ },
         { lookupCalls := 1, embedCalls := 1, scanCalls := 1, insertCalls := 1,
           insertedDocs := [⟨file.originalname, fileHash, file.size, file.mimetype,
             extractedText,
             "[Similar to: " ++ bestMatch.filename ++ "]" ++ "\n\n" ++ bestMatch.ai_summary,
             embedding, env.EMBEDDING_MODEL⟩] })
    else
      processNoMatchPhase env file extractedText aiSummary embedding fileHash
        (bestMatch :: rest)
  | [] => processNoMatchPhase env file extractedText aiSummary embedding fileHash []

/-- `processDocumentWithRAG(file, extractedText, aiSummary)`.  The `try/catch`
wrapping the body is compiled into the `.error` arms: every throw from a
store or embedding call lands in `fallbackRagResult`, which returns the
caller-supplied summary.  Each leaf also reports the calls made up to it. -/
def processDocumentWithRAG (env : Env) (file : UploadedFile) (extractedText : String)
    (aiSummary : Option String) : RagResult × EffectTrace :=
  if env.ragEnabled = false then
    ({ isFromRAG := false, aiSummary := aiSummary, similarDocuments := [] },
     ({} : EffectTrace))
  else
    match env.getDocumentByHash (env.generateFileHash file.buffer) with
    | .error e => (fallbackRagResult aiSummary e, { lookupCalls := 1 })
    | .ok (some existingDoc) =>
      ({ isFromRAG := true, aiSummary := some existingDoc.ai_summary,
         similarDocuments := [], exactMatch := some true,
         matchedDocument := some ⟨existingDoc.id, existingDoc.filename,
           existingDoc.created_at⟩ },
       { lookupCalls := 1 })
    | .ok none =>
      match env.generateEmbedding extractedText with
      | .error e => (fallbackRagResult aiSummary e, { lookupCalls := 1, embedCalls := 1 })
      | .ok embedding =>
        match env.getRagSettingThreshold with
        | .error e =>
          (fallbackRagResult aiSummary e, { lookupCalls := 1, embedCalls := 1 })
        | .ok thresholdSetting =>
          match env.getRagSettingMaxDocs with
          | .error e =>
            (fallbackRagResult aiSummary e, { lookupCalls := 1, embedCalls := 1 })
          | .ok maxDocsSetting =>
            processSimilarityPhase env file extractedText aiSummary embedding
              (env.generateFileHash file.buffer)
              (thresholdSetting.getD env.SIMILARITY_THRESHOLD)
              (maxDocsSetting.getD env.MAX_SIMILAR_DOCUMENTS)

/-- What the `POST /analyze` handler has produced for a `resumer` request by
the time it answers: the body text, the `ragResult`, and the calls made. -/
structure AnalyzeOutcome where
  aiResponse : String
  ragResult : RagResult
  effects : EffectTrace

/-- The RAG branch of the `POST /analyze` handler for `action === 'resumer'`
on a PDF (server module): it always calls `summarizeLongText` first — one
generation-capability call — and only then `processDocumentWithRAG`; the
`catch (ragError)` arm re-runs summarization; with RAG disabled it only
summarizes.  A `.error` result is the handler's HTTP 500 path. -/
def analyzeResumer (env : Env) (file : UploadedFile) (text : String) :
    Except Err AnalyzeOutcome :=
  if env.ragEnabled then
    match env.summarizeLongText text with
    | .error ragErr =>
      match env.summarizeLongText text with
      | .error e => .error e
      | .ok aiResponse =>
        .ok ⟨aiResponse,
          { isFromRAG := false, aiSummary := some aiResponse, similarDocuments := [],
            exactMatch := some false, error := some ragErr },
          { generateCalls := 2 }⟩
    | .ok newAiSummary =>
      let pr := processDocumentWithRAG env file text (some newAiSummary)
      let aiResponse := if pr.1.isFromRAG then pr.1.aiSummary.getD "" else newAiSummary
      .ok ⟨aiResponse, pr.1, { pr.2 with generateCalls := pr.2.generateCalls + 1 }⟩
  else
    match env.summarizeLongText text with
    | .error e => .error e
    | .ok aiResponse =>
      .ok ⟨aiResponse,
        { isFromRAG := false, aiSummary := some aiResponse, similarDocuments := [],
          exactMatch := some false },
        { generateCalls := 1 }⟩

/-- A generic small upload used to instantiate hypotheses. -/
def fileW : UploadedFile := ⟨"w.pdf", 1, "application/pdf", [0]⟩

/-- The stored record hit by the duplicate re-upload of C1. -/
def docC1 : DocumentRecord :=
  ⟨3, "old.pdf", "HASH1", 20, "application/pdf", "old text", "CACHED", [1], "m", 9⟩

/-- The duplicate upload of C1: its hash equals `docC1.file_hash`. -/
def fileC1 : UploadedFile := ⟨"dup.pdf", 20, "application/pdf", [0, 1, 2]⟩

/-- Environment for C1: the store already holds `docC1` under the uploaded
file's hash, and generation would produce `"FRESH"`. -/
def envC1 : Env :=
  ⟨true, fun _ => "HASH1", fun _ => .ok (some docC1), fun _ => .ok [1], .ok none,
    .ok none, .ok [docC1], fun _ => .ok 99, fun _ => .ok "FRESH", 0.85, 5, "m"⟩

/-- Environment for the C3 witness: the hash lookup always throws. -/
def envC3 : Env :=
  ⟨true, fun _ => "h", fun _ => .error "db down", fun _ => .ok [1], .ok none,
    .ok none, .ok [], fun _ => .ok 1, fun _ => .ok "s", 0.85, 5, "m"⟩

/-- The committed winner row of the C7 race: same content hash as the upload,
with the stored result `"WINNER"`. -/
def docC7 : DocumentRecord :=
  ⟨4, "w.pdf", "HASH", 9, "application/pdf", "wt", "WINNER", [1, 1], "m", 3⟩

/-- Environment for C7: the upload's hash lookup raced ahead of the winner's
commit (`ok none`), the winner is in the table, and the insert is rejected by
the uniqueness constraint. -/
def envC7 : Env :=
  ⟨true, fun _ => "HASH", fun _ => .ok none, fun _ => .ok [1], .ok none, .ok none,
    .ok [docC7], fun _ => .error "ER_DUP_ENTRY", fun _ => .ok "s", 0.85, 5, "m"⟩

/-- Environment for the C8 witness: RAG disabled. -/
def envC10 : Env :=
  ⟨false, fun _ => "h", fun _ => .ok none, fun _ => .ok [1], .ok none, .ok none,
    .ok [], fun _ => .ok 1, fun _ => .ok "s", 0.85, 5, "m"⟩

/-- Environment for the C10 witness: RAG disabled (distinct from `envC10`
only in inessential fields, so each claim keeps its own instance). -/
def envC10b : Env :=
  ⟨false, fun _ => "hb", fun _ => .ok none, fun _ => .ok [1], .ok none, .ok none,
    .ok [], fun _ => .ok 1, fun _ => .ok "sb", 0.85, 5, "m"⟩

/-- The stored near-duplicate matched in the C9 witness. -/
def docC9 : DocumentRecord :=
  ⟨7, "near.pdf", "hh", 11, "application/pdf", "near text", "OLD", [1, 0], "m", 10⟩

/-- Environment for the C9 witness: hash miss, embedding `[1, 0]`, and a
stored record with the identical embedding (cosine similarity `1`). -/
def envC9 : Env :=
  ⟨true, fun _ => "qh", fun _ => .ok none, fun _ => .ok [1, 0], .ok none, .ok none,
    .ok [docC9], fun _ => .ok 42, fun _ => .ok "s", 0.85, 5, "m"⟩

/-! ## Theorems -/

lemma sumSq_nonneg (v : List ℝ) : 0 ≤ sumSq v := by
  refine List.sum_nonneg ?_
  intro x hx
  obtain ⟨a, _, rfl⟩ := List.mem_map.mp hx
  exact mul_self_nonneg a

lemma sumSq_nil : sumSq [] = 0 := rfl

lemma sumSq_cons (x : ℝ) (xs : List ℝ) : sumSq (x :: xs) = x * x + sumSq xs := by
  simp [sumSq]

lemma dotList_nil_left (v : List ℝ) : dotList [] v = 0 := rfl

lemma dotList_nil_right (v : List ℝ) : dotList v [] = 0 := by
  cases v <;> rfl

lemma dotList_cons (x y : ℝ) (xs ys : List ℝ) :
    dotList (x :: xs) (y :: ys) = x * y + dotList xs ys := by
  simp [dotList]

/-- Cauchy–Schwarz for the list dot product, proved by induction. -/
lemma dotList_sq_le (v1 v2 : List ℝ) : dotList v1 v2 ^ 2 ≤ sumSq v1 * sumSq v2 := by
  induction v1 generalizing v2 with
  | nil =>
    simp [dotList_nil_left, sumSq_nil]
  | cons x xs ih =>
    cases v2 with
    | nil =>
      simp [dotList_nil_right, sumSq_nil]
    | cons y ys =>
      have hA : 0 ≤ sumSq xs := sumSq_nonneg xs
      have hB : 0 ≤ sumSq ys := sumSq_nonneg ys
      have ihd := ih ys
      rw [dotList_cons, sumSq_cons, sumSq_cons]
      rcases eq_or_lt_of_le hB with hB0 | hBpos
      · have hd2 : dotList xs ys ^ 2 ≤ 0 := by nlinarith
        have hd : dotList xs ys = 0 := by
          have := sq_nonneg (dotList xs ys)
          have h0 : dotList xs ys ^ 2 = 0 := le_antisymm hd2 this
          exact sq_eq_zero_iff.mp h0
        rw [hd]
        nlinarith [mul_nonneg hA (mul_self_nonneg y)]
      · nlinarith [sq_nonneg (x * sumSq ys - y * dotList xs ys),
          mul_nonneg (add_nonneg (mul_self_nonneg y) hB) (sub_nonneg.mpr ihd)]

lemma dotList_self (v : List ℝ) : dotList v v = sumSq v := by
  induction v with
  | nil => rfl
  | cons x xs ih => rw [dotList_cons, sumSq_cons, ih]

lemma sumSq_pos_of_mem {v : List ℝ} {x : ℝ} (hx : x ∈ v) (hx0 : x ≠ 0) :
    0 < sumSq v := by
  have hmem : x * x ∈ v.map (fun a => a * a) := List.mem_map_of_mem _ hx
  have hle : x * x ≤ sumSq v := by
    refine List.single_le_sum ?_ _ hmem
    intro b hb
    obtain ⟨a, _, rfl⟩ := List.mem_map.mp hb
    exact mul_self_nonneg a
  exact lt_of_lt_of_le (mul_self_pos.mpr hx0) hle

/-- C4: for equal-length real vectors, `calculateCosineSimilarity` lies in
`[-1, 1]`; it returns exactly `0` when either vector has zero magnitude and
otherwise returns `dot / (‖v1‖ * ‖v2‖)`; and for every vector with a nonzero
entry, the similarity with itself is `1`. -/
theorem calculateCosineSimilarity_spec (v1 v2 : List ℝ) (hlen : v1.length = v2.length) :
    (-1 ≤ calculateCosineSimilarity v1 v2 ∧ calculateCosineSimilarity v1 v2 ≤ 1) ∧
    ((sumSq v1 = 0 ∨ sumSq v2 = 0) → calculateCosineSimilarity v1 v2 = 0) ∧
    (sumSq v1 ≠ 0 → sumSq v2 ≠ 0 →
      calculateCosineSimilarity v1 v2 =
        dotList v1 v2 / (Real.sqrt (sumSq v1) * Real.sqrt (sumSq v2))) ∧
    (∀ v : List ℝ, (∃ x ∈ v, x ≠ 0) → calculateCosineSimilarity v v = 1) := by
  have hlen' : ¬ v1.length ≠ v2.length := by simp [hlen]
  refine ⟨?_, ?_, ?_, ?_⟩
  · by_cases hz : sumSq v1 = 0 ∨ sumSq v2 = 0
    · rw [calculateCosineSimilarity, if_neg hlen', if_pos hz]
      norm_num
    · rw [calculateCosineSimilarity, if_neg hlen', if_neg hz]
      push_neg at hz
      have hm1 : 0 < sumSq v1 := lt_of_le_of_ne (sumSq_nonneg v1) (Ne.symm hz.1)
      have hm2 : 0 < sumSq v2 := lt_of_le_of_ne (sumSq_nonneg v2) (Ne.symm hz.2)
      have hs1 : 0 < Real.sqrt (sumSq v1) := Real.sqrt_pos.mpr hm1
      have hs2 : 0 < Real.sqrt (sumSq v2) := Real.sqrt_pos.mpr hm2
      have hs : 0 < Real.sqrt (sumSq v1) * Real.sqrt (sumSq v2) := mul_pos hs1 hs2
      have hsq : (Real.sqrt (sumSq v1) * Real.sqrt (sumSq v2)) ^ 2 = sumSq v1 * sumSq v2 := by
        rw [mul_pow, Real.sq_sqrt hm1.le, Real.sq_sqrt hm2.le]
      have hd2 : dotList v1 v2 ^ 2 ≤ (Real.sqrt (sumSq v1) * Real.sqrt (sumSq v2)) ^ 2 := by
        rw [hsq]; exact dotList_sq_le v1 v2
      constructor
      · rw [le_div_iff₀ hs]
        nlinarith [sq_nonneg (dotList v1 v2 + Real.sqrt (sumSq v1) * Real.sqrt (sumSq v2))]
      · rw [div_le_one hs]
        nlinarith [sq_nonneg (dotList v1 v2 - Real.sqrt (sumSq v1) * Real.sqrt (sumSq v2))]
  · intro hz
    rw [calculateCosineSimilarity, if_neg hlen', if_pos hz]
  · intro h1 h2
    rw [calculateCosineSimilarity, if_neg hlen', if_neg (by tauto)]
  · intro v hv
    obtain ⟨x, hx, hx0⟩ := hv
    have hm : 0 < sumSq v := sumSq_pos_of_mem hx hx0
    have hz : ¬ (sumSq v = 0 ∨ sumSq v = 0) := by
      simp only [or_self]
      exact ne_of_gt hm
    rw [calculateCosineSimilarity, if_neg (by simp), if_neg hz, dotList_self,
      Real.mul_self_sqrt hm.le, div_self (ne_of_gt hm)]

@[simp] lemma toSimilarityResult_similarity_score (d : DocumentRecord) (s : ℝ) :
    (toSimilarityResult d s).similarity_score = s := rfl

@[simp] lemma toSimilarityResult_created_at (d : DocumentRecord) (s : ℝ) :
    (toSimilarityResult d s).created_at = d.created_at := rfl

@[simp] lemma toSimilarityResult_id (d : DocumentRecord) (s : ℝ) :
    (toSimilarityResult d s).id = d.id := rfl

@[simp] lemma scanDocs_nil (q : List ℝ) (t : ℝ) : scanDocs q t [] = [] := rfl

lemma scanDocs_cons_break {q : List ℝ} {t : ℝ} {d : DocumentRecord}
    (rest : List DocumentRecord)
    (h1 : t ≤ calculateCosineSimilarity q d.embedding)
    (h2 : 0.95 < calculateCosineSimilarity q d.embedding) :
    scanDocs q t (d :: rest) =
      [toSimilarityResult d (calculateCosineSimilarity q d.embedding)] := by
  rw [scanDocs, if_pos h1, if_pos h2]

lemma scanDocs_cons_push {q : List ℝ} {t : ℝ} {d : DocumentRecord}
    (rest : List DocumentRecord)
    (h1 : t ≤ calculateCosineSimilarity q d.embedding)
    (h2 : ¬ 0.95 < calculateCosineSimilarity q d.embedding) :
    scanDocs q t (d :: rest) =
      toSimilarityResult d (calculateCosineSimilarity q d.embedding) ::
        scanDocs q t rest := by
  rw [scanDocs, if_pos h1, if_neg h2]

lemma scanDocs_cons_skip {q : List ℝ} {t : ℝ} {d : DocumentRecord}
    (rest : List DocumentRecord)
    (h1 : ¬ t ≤ calculateCosineSimilarity q d.embedding) :
    scanDocs q t (d :: rest) = scanDocs q t rest := by
  rw [scanDocs, if_neg h1]

/-- Every record produced by the scan comes from a candidate row and carries
that candidate's cosine score, which reaches the threshold. -/
lemma mem_scanDocs {q : List ℝ} {t : ℝ} {ds : List DocumentRecord}
    {r : SimilarityResult} (h : r ∈ scanDocs q t ds) :
    ∃ d ∈ ds, r = toSimilarityResult d (calculateCosineSimilarity q d.embedding) ∧
      t ≤ calculateCosineSimilarity q d.embedding := by
  induction ds with
  | nil => cases h
  | cons d rest ih =>
    by_cases h1 : t ≤ calculateCosineSimilarity q d.embedding
    · by_cases h2 : (0.95 : ℝ) < calculateCosineSimilarity q d.embedding
      · rw [scanDocs_cons_break rest h1 h2, List.mem_singleton] at h
        exact ⟨d, List.mem_cons_self d rest, h, h1⟩
      · rw [scanDocs_cons_push rest h1 h2, List.mem_cons] at h
        rcases h with h | h
        · exact ⟨d, List.mem_cons_self d rest, h, h1⟩
        · obtain ⟨d', hd', hr⟩ := ih h
          exact ⟨d', List.mem_cons_of_mem d hd', hr⟩
    · rw [scanDocs_cons_skip rest h1] at h
      obtain ⟨d', hd', hr⟩ := ih h
      exact ⟨d', List.mem_cons_of_mem d hd', hr⟩

/-- The scan emits results in candidate order, so it preserves the
newest-first pairwise ordering of the candidate rows. -/
lemma scanDocs_pairwise_created (q : List ℝ) (t : ℝ) {ds : List DocumentRecord}
    (h : ds.Pairwise createdGe) :
    (scanDocs q t ds).Pairwise (fun a b => b.created_at ≤ a.created_at) := by
  induction ds with
  | nil => simp
  | cons d rest ih =>
    obtain ⟨hd, hrest⟩ := List.pairwise_cons.mp h
    by_cases h1 : t ≤ calculateCosineSimilarity q d.embedding
    · by_cases h2 : (0.95 : ℝ) < calculateCosineSimilarity q d.embedding
      · rw [scanDocs_cons_break rest h1 h2]
        simp
      · rw [scanDocs_cons_push rest h1 h2]
        refine List.pairwise_cons.mpr ⟨?_, ih hrest⟩
        intro r hr
        obtain ⟨d', hd', hr', _⟩ := mem_scanDocs hr
        rw [hr', toSimilarityResult_created_at, toSimilarityResult_created_at]
        exact hd d' hd'
    · rw [scanDocs_cons_skip rest h1]
      exact ih hrest

lemma orderedInsert_pairwise_scoreThenCreated (a : SimilarityResult)
    {s : List SimilarityResult} (hs : s.Pairwise scoreThenCreated)
    (ha : ∀ x ∈ s, x.created_at ≤ a.created_at) :
    (List.orderedInsert scoreGe a s).Pairwise scoreThenCreated := by
  induction s with
  | nil => simp [scoreThenCreated]
  | cons b l ih =>
    obtain ⟨hb, hl⟩ := List.pairwise_cons.mp hs
    by_cases hr : scoreGe a b
    · rw [List.orderedInsert, if_pos hr]
      refine List.pairwise_cons.mpr ⟨?_, hs⟩
      intro y hy
      rcases List.mem_cons.mp hy with rfl | hyl
      · exact ⟨hr, fun _ => ha y (List.mem_cons_self y l)⟩
      · exact ⟨le_trans (hb y hyl).1 hr, fun _ => ha y (List.mem_cons_of_mem b hyl)⟩
    · rw [List.orderedInsert, if_neg hr]
      have hlt : a.similarity_score < b.similarity_score := not_le.mp hr
      refine List.pairwise_cons.mpr
        ⟨?_, ih hl (fun x hx => ha x (List.mem_cons_of_mem b hx))⟩
      intro y hy
      rcases (List.mem_orderedInsert scoreGe).mp hy with rfl | hyl
      · exact ⟨hlt.le, fun hba => absurd hba (not_le.mpr hlt)⟩
      · exact hb y hyl

lemma sortByScoreDesc_pairwise_scoreThenCreated {l : List SimilarityResult}
    (hl : l.Pairwise (fun a b => b.created_at ≤ a.created_at)) :
    (sortByScoreDesc l).Pairwise scoreThenCreated := by
  induction l with
  | nil => simp [sortByScoreDesc]
  | cons a l ih =>
    obtain ⟨ha, hl'⟩ := List.pairwise_cons.mp hl
    have : sortByScoreDesc (a :: l) =
        List.orderedInsert scoreGe a (sortByScoreDesc l) := rfl
    rw [this]
    exact orderedInsert_pairwise_scoreThenCreated a (ih hl')
      (fun x hx => ha x ((List.mem_insertionSort scoreGe).mp hx))

@[simp] lemma mem_sortByScoreDesc {l : List SimilarityResult} {r : SimilarityResult} :
    r ∈ sortByScoreDesc l ↔ r ∈ l := List.mem_insertionSort scoreGe

lemma sortByCreatedDesc_pairwise (docs : List DocumentRecord) :
    (sortByCreatedDesc docs).Pairwise createdGe :=
  List.sorted_insertionSort createdGe docs

/-- C2: for every environment, query vector, threshold and limit,
`findSimilarDocuments` returns at most `limit` results, every returned score
reaches the threshold, scores descend, and exact score ties are ordered with
the more recent `created_at` first. -/
theorem findSimilarDocuments_contract (env : Env) (q : List ℝ) (t : ℝ) (lim : ℕ) :
    (findSimilarDocuments env q t lim).length ≤ lim ∧
    (∀ r ∈ findSimilarDocuments env q t lim, t ≤ r.similarity_score) ∧
    (findSimilarDocuments env q t lim).Pairwise (fun a b =>
      b.similarity_score ≤ a.similarity_score ∧
        (a.similarity_score = b.similarity_score → b.created_at ≤ a.created_at)) := by
  have htriv : ∀ res : List SimilarityResult, res = [] →
      res.length ≤ lim ∧ (∀ r ∈ res, t ≤ r.similarity_score) ∧
        res.Pairwise (fun a b =>
          b.similarity_score ≤ a.similarity_score ∧
            (a.similarity_score = b.similarity_score → b.created_at ≤ a.created_at)) := by
    rintro _ rfl
    refine ⟨by simp, by simp, by simp⟩
  rw [findSimilarDocuments]
  cases hget : env.getAllDocuments with
  | error e => exact htriv _ rfl
  | ok docs =>
    have hred : (match (Except.ok docs : Except Err (List DocumentRecord)) with
        | .error _ => ([] : List SimilarityResult)
        | .ok docs => if docs.isEmpty then [] else findSimilarCore q t lim docs) =
        if docs.isEmpty then [] else findSimilarCore q t lim docs := rfl
    rw [hred]
    by_cases hemp : docs.isEmpty
    · rw [if_pos hemp]
      exact htriv _ rfl
    · rw [if_neg hemp, findSimilarCore]
      have hscan := scanDocs_pairwise_created q t (sortByCreatedDesc_pairwise docs)
      have hsorted := sortByScoreDesc_pairwise_scoreThenCreated hscan
      refine ⟨?_, ?_, ?_⟩
      · exact List.length_take_le lim _
      · intro r hr
        have hr' : r ∈ sortByScoreDesc (scanDocs q t (sortByCreatedDesc docs)) :=
          (List.take_sublist lim _).subset hr
        obtain ⟨d, _, hrd, hts⟩ := mem_scanDocs (mem_sortByScoreDesc.mp hr')
        rw [hrd, toSimilarityResult_similarity_score]
        exact hts
      · refine (List.Pairwise.sublist (List.take_sublist lim _) hsorted).imp ?_
        intro a b hab
        exact ⟨hab.1, fun heq => hab.2 (le_of_eq heq)⟩

lemma calculateCosineSimilarity_length_ne {v1 v2 : List ℝ}
    (h : v1.length ≠ v2.length) : calculateCosineSimilarity v1 v2 = 0 := by
  rw [calculateCosineSimilarity, if_pos h]

/-- With a positive threshold, candidates whose stored embedding has a
different length than the query are transparent to the scan: they score `0`,
are not pushed, and do not break the loop. -/
lemma scanDocs_filter_matching (q : List ℝ) {t : ℝ} (ht : 0 < t) :
    ∀ ds : List DocumentRecord,
      scanDocs q t ds =
        scanDocs q t (ds.filter (fun d => d.embedding.length == q.length)) := by
  intro ds
  induction ds with
  | nil => rfl
  | cons d rest ih =>
    by_cases hlen : d.embedding.length = q.length
    · rw [List.filter_cons_of_pos (by simpa using hlen)]
      by_cases h1 : t ≤ calculateCosineSimilarity q d.embedding
      · by_cases h2 : (0.95 : ℝ) < calculateCosineSimilarity q d.embedding
        · rw [scanDocs_cons_break rest h1 h2, scanDocs_cons_break _ h1 h2]
        · rw [scanDocs_cons_push rest h1 h2, scanDocs_cons_push _ h1 h2, ih]
      · rw [scanDocs_cons_skip rest h1, scanDocs_cons_skip _ h1, ih]
    · have hcos : calculateCosineSimilarity q d.embedding = 0 :=
        calculateCosineSimilarity_length_ne (fun hq => hlen hq.symm)
      have h1 : ¬ t ≤ calculateCosineSimilarity q d.embedding := by
        rw [hcos]; exact not_le.mpr ht
      rw [List.filter_cons_of_neg (by simpa using hlen), scanDocs_cons_skip rest h1, ih]

/-- C5 (amended): with a positive threshold, every result of
`findSimilarDocuments` originates from a stored vector of the query's length,
and the search behaves exactly as if mismatched-length candidates had been
removed beforehand (they are skipped, never an error that aborts the scan). -/
theorem findSimilarDocuments_skips_mismatched (env : Env) (q : List ℝ) (t : ℝ)
    (lim : ℕ) (ht : 0 < t) (docs : List DocumentRecord)
    (hget : env.getAllDocuments = .ok docs) :
    (∀ r ∈ findSimilarDocuments env q t lim, ∃ d ∈ docs,
      d.embedding.length = q.length ∧
        r = toSimilarityResult d (calculateCosineSimilarity q d.embedding)) ∧
    findSimilarDocuments env q t lim =
      (sortByScoreDesc (scanDocs q t ((sortByCreatedDesc docs).filter
        (fun d => d.embedding.length == q.length)))).take lim := by
  have hres : findSimilarDocuments env q t lim =
      if docs.isEmpty then [] else findSimilarCore q t lim docs := by
    rw [findSimilarDocuments, hget]
  constructor
  · intro r hr
    rw [hres] at hr
    by_cases hemp : docs.isEmpty
    · rw [if_pos hemp] at hr
      cases hr
    · rw [if_neg hemp, findSimilarCore] at hr
      have hr' : r ∈ sortByScoreDesc (scanDocs q t (sortByCreatedDesc docs)) :=
        (List.take_sublist lim _).subset hr
      obtain ⟨d, hd, hrd, hts⟩ := mem_scanDocs (mem_sortByScoreDesc.mp hr')
      refine ⟨d, (List.mem_insertionSort createdGe).mp hd, ?_, hrd⟩
      by_contra hne
      rw [calculateCosineSimilarity_length_ne (fun hq => hne hq.symm)] at hts
      exact absurd (lt_of_lt_of_le ht hts) (lt_irrefl 0)
  · rw [hres]
    by_cases hemp : docs.isEmpty
    · rw [if_pos hemp]
      rw [List.isEmpty_iff] at hemp
      subst hemp
      simp [sortByCreatedDesc, sortByScoreDesc]
    · rw [if_neg hemp, findSimilarCore, scanDocs_filter_matching q ht]

/-- C5 (counterexample to the claim as stated): with threshold `0`, a stored
vector of mismatched length is scored `0 ≥ 0` and does appear in the results. -/
theorem findSimilarDocuments_mismatched_ce :
    docC5.embedding.length ≠ ([1] : List ℝ).length ∧
    toSimilarityResult docC5 0 ∈ findSimilarDocuments envC5 [1] 0 5 := by
  constructor
  · simp [docC5]
  · have hcos : calculateCosineSimilarity [1] docC5.embedding = 0 :=
      calculateCosineSimilarity_length_ne (by simp [docC5])
    have hres : findSimilarDocuments envC5 [1] 0 5 =
        findSimilarCore [1] 0 5 [docC5] := by
      rw [findSimilarDocuments]
      rfl
    have hsortc : sortByCreatedDesc [docC5] = [docC5] := rfl
    have hscan : scanDocs [1] 0 [docC5] = [toSimilarityResult docC5 0] := by
      rw [show ([docC5] : List DocumentRecord) = docC5 :: [] from rfl,
        scanDocs_cons_push [] (by rw [hcos]) (by rw [hcos]; norm_num), hcos]
      rfl
    rw [hres, findSimilarCore, hsortc, hscan]
    simp [sortByScoreDesc]

lemma scanDocsFull_cons_pos {q : List ℝ} {t : ℝ} {d : DocumentRecord}
    (rest : List DocumentRecord)
    (h1 : t ≤ calculateCosineSimilarity q d.embedding) :
    scanDocsFull q t (d :: rest) =
      toSimilarityResult d (calculateCosineSimilarity q d.embedding) ::
        scanDocsFull q t rest := by
  rw [scanDocsFull, if_pos h1]

lemma scanDocsFull_cons_neg {q : List ℝ} {t : ℝ} {d : DocumentRecord}
    (rest : List DocumentRecord)
    (h1 : ¬ t ≤ calculateCosineSimilarity q d.embedding) :
    scanDocsFull q t (d :: rest) = scanDocsFull q t rest := by
  rw [scanDocsFull, if_neg h1]

/-- The early-exit scan is a prefix-shaped sublist of the full scan. -/
lemma scanDocs_sublist_full (q : List ℝ) (t : ℝ) (ds : List DocumentRecord) :
    List.Sublist (scanDocs q t ds) (scanDocsFull q t ds) := by
  induction ds with
  | nil => exact List.Sublist.refl []
  | cons d rest ih =>
    by_cases h1 : t ≤ calculateCosineSimilarity q d.embedding
    · by_cases h2 : (0.95 : ℝ) < calculateCosineSimilarity q d.embedding
      · rw [scanDocs_cons_break rest h1 h2, scanDocsFull_cons_pos rest h1]
        exact (List.nil_sublist _).cons₂ _
      · rw [scanDocs_cons_push rest h1 h2, scanDocsFull_cons_pos rest h1]
        exact ih.cons₂ _
    · rw [scanDocs_cons_skip rest h1, scanDocsFull_cons_neg rest h1]
      exact ih

/-- Stability of the score sort as sublist-monotonicity. -/
lemma sortByScoreDesc_sublist_mono {l₁ l₂ : List SimilarityResult}
    (h : List.Sublist l₁ l₂) : List.Sublist (sortByScoreDesc l₁) (sortByScoreDesc l₂) := by
  induction h with
  | slnil => exact List.Sublist.refl []
  | cons a h ih => exact ih.trans (List.sublist_orderedInsert a _)
  | cons₂ a h ih =>
    exact List.Sublist.orderedInsert_sublist a ih (List.sorted_insertionSort scoreGe _)

/-- An early-exit scan is a (possibly truncated) run of at-most-`0.95` scores,
optionally closed by one triggering candidate above `0.95`. -/
lemma scanDocs_trigger_structure (q : List ℝ) (t : ℝ) (ds : List DocumentRecord) :
    (∀ r ∈ scanDocs q t ds, r.similarity_score ≤ 0.95) ∨
    (∃ init w, scanDocs q t ds = init ++ [w] ∧ 0.95 < w.similarity_score ∧
      ∀ r ∈ init, r.similarity_score ≤ 0.95) := by
  induction ds with
  | nil => exact Or.inl (by simp)
  | cons d rest ih =>
    by_cases h1 : t ≤ calculateCosineSimilarity q d.embedding
    · by_cases h2 : (0.95 : ℝ) < calculateCosineSimilarity q d.embedding
      · refine Or.inr ⟨[], toSimilarityResult d (calculateCosineSimilarity q d.embedding),
          ?_, by simpa using h2, by simp⟩
        rw [scanDocs_cons_break rest h1 h2]
        rfl
      · rw [scanDocs_cons_push rest h1 h2]
        rcases ih with hall | ⟨init, w, heq, hw, hinit⟩
        · refine Or.inl ?_
          intro r hr
          rcases List.mem_cons.mp hr with rfl | hr'
          · simpa using not_lt.mp h2
          · exact hall r hr'
        · refine Or.inr ⟨toSimilarityResult d (calculateCosineSimilarity q d.embedding) :: init,
            w, by rw [heq]; rfl, hw, ?_⟩
          intro r hr
          rcases List.mem_cons.mp hr with rfl | hr'
          · simpa using not_lt.mp h2
          · exact hinit r hr'
    · rw [scanDocs_cons_skip rest h1]
      exact ih

/-- A strictly maximal last element is placed at the head by the stable score
sort. -/
lemma sortByScoreDesc_append_max {init : List SimilarityResult}
    {w : SimilarityResult}
    (hw : ∀ r ∈ init, r.similarity_score < w.similarity_score) :
    sortByScoreDesc (init ++ [w]) = w :: sortByScoreDesc init := by
  induction init with
  | nil => rfl
  | cons a l ih =>
    have hstep : sortByScoreDesc ((a :: l) ++ [w]) =
        List.orderedInsert scoreGe a (sortByScoreDesc (l ++ [w])) := rfl
    have hcond : ¬ scoreGe a w := not_le.mpr (hw a (List.mem_cons_self a l))
    rw [hstep, ih (fun r hr => hw r (List.mem_cons_of_mem a hr)), List.orderedInsert,
      if_neg hcond]
    rfl

lemma pairwise_le95_of_forall {l : List SimilarityResult}
    (h : ∀ r ∈ l, r.similarity_score ≤ 0.95) :
    l.Pairwise (fun _ b => b.similarity_score ≤ (0.95 : ℝ)) := by
  rw [List.pairwise_iff_forall_sublist]
  intro a b hab
  exact h b (hab.subset (List.mem_cons_of_mem a (List.mem_singleton_self b)))

/-- C6: the early-exit search result is a sublist — same relative descending
order — of the ranking a full scan over the same candidates would produce
(only candidates beyond the cutoff, or beyond the limit, are missing); and any
returned candidate scoring above `0.95` (a trigger) is ranked first. -/
theorem findSimilarDocuments_early_exit_refines (env : Env) (q : List ℝ) (t : ℝ)
    (lim : ℕ) (docs : List DocumentRecord)
    (hget : env.getAllDocuments = .ok docs) :
    List.Sublist (findSimilarDocuments env q t lim)
      (sortByScoreDesc (scanDocsFull q t (sortByCreatedDesc docs))) ∧
    (findSimilarDocuments env q t lim).Pairwise
      (fun _ b => b.similarity_score ≤ (0.95 : ℝ)) := by
  have hres : findSimilarDocuments env q t lim =
      if docs.isEmpty then [] else findSimilarCore q t lim docs := by
    rw [findSimilarDocuments, hget]
  by_cases hemp : docs.isEmpty
  · rw [hres, if_pos hemp]
    exact ⟨List.nil_sublist _, by simp⟩
  · rw [hres, if_neg hemp, findSimilarCore]
    constructor
    · exact (List.take_sublist lim _).trans
        (sortByScoreDesc_sublist_mono (scanDocs_sublist_full q t _))
    · rcases scanDocs_trigger_structure q t (sortByCreatedDesc docs) with
        hall | ⟨init, w, heq, hw, hinit⟩
      · refine pairwise_le95_of_forall ?_
        intro r hr
        exact hall r (mem_sortByScoreDesc.mp ((List.take_sublist lim _).subset hr))
      · have hmax : ∀ r ∈ init, r.similarity_score < w.similarity_score :=
          fun r hr => lt_of_le_of_lt (hinit r hr) hw
        rw [heq, sortByScoreDesc_append_max hmax]
        cases lim with
        | zero => simp
        | succ n =>
          rw [List.take_succ_cons]
          refine List.pairwise_cons.mpr ⟨?_, ?_⟩
          · intro b hb
            exact hinit b (mem_sortByScoreDesc.mp ((List.take_sublist n _).subset hb))
          · refine pairwise_le95_of_forall ?_
            intro r hr
            exact hinit r (mem_sortByScoreDesc.mp ((List.take_sublist n _).subset hr))

/-- Witness for C5 (amended) at a concrete positive threshold and store. -/
theorem findSimilarDocuments_skips_mismatched_witness :
    (0 : ℝ) < 1 ∧ envC6.getAllDocuments = .ok [] ∧
    ((∀ r ∈ findSimilarDocuments envC6 [1] 1 5, ∃ d ∈ ([] : List DocumentRecord),
        d.embedding.length = ([1] : List ℝ).length ∧
          r = toSimilarityResult d (calculateCosineSimilarity [1] d.embedding)) ∧
      findSimilarDocuments envC6 [1] 1 5 =
        (sortByScoreDesc (scanDocs [1] 1 ((sortByCreatedDesc []).filter
          (fun d => d.embedding.length == ([1] : List ℝ).length)))).take 5) :=
  ⟨one_pos, rfl, findSimilarDocuments_skips_mismatched envC6 [1] 1 5 one_pos [] rfl⟩

/-- Witness for C6 at a concrete environment. -/
theorem findSimilarDocuments_early_exit_refines_witness :
    envC6.getAllDocuments = .ok [] ∧
    (List.Sublist (findSimilarDocuments envC6 [1] 1 5)
        (sortByScoreDesc (scanDocsFull [1] 1 (sortByCreatedDesc []))) ∧
      (findSimilarDocuments envC6 [1] 1 5).Pairwise
        (fun _ b => b.similarity_score ≤ (0.95 : ℝ))) :=
  ⟨rfl, findSimilarDocuments_early_exit_refines envC6 [1] 1 5 [] rfl⟩

/-- C10: with RAG administratively disabled (`RAG_ENABLED` not `'true'`), the
orchestrator returns the caller's summary unchanged, with `isFromRAG = false`
and an empty `similarDocuments` list, and touches nothing: the empty effect
trace records no hash lookup, no embedding call, no similarity scan, no
insert, and no generation call. -/
theorem processDocumentWithRAG_disabled_untouched (env : Env) (file : UploadedFile)
    (text : String) (aiSummary : Option String) (hdis : env.ragEnabled = false) :
    processDocumentWithRAG env file text aiSummary =
      ({ isFromRAG := false, aiSummary := aiSummary, similarDocuments := [] },
       ({} : EffectTrace)) := by
  rw [processDocumentWithRAG, if_pos hdis]

/-- Witness for C10 at a concrete disabled environment. -/
theorem processDocumentWithRAG_disabled_untouched_witness :
    envC10b.ragEnabled = false ∧
    processDocumentWithRAG envC10b fileW "t" (some "s") =
      ({ isFromRAG := false, aiSummary := some "s", similarDocuments := [] },
       ({} : EffectTrace)) :=
  ⟨rfl, processDocumentWithRAG_disabled_untouched envC10b fileW "t" (some "s") rfl⟩

/-- C1: a byte-identical re-upload through the `/analyze` `resumer` path does
hit the exact-match branch — the stored summary `"CACHED"` is returned
verbatim, nothing is inserted, no embedding is generated — but the handler
has nevertheless invoked the generation capability once (`generateCalls = 1`):
`summarizeLongText` runs before `processDocumentWithRAG`'s hash lookup, so
the hash check does not short-circuit the expensive generation call. -/
theorem analyzeResumer_duplicate_still_generates :
    analyzeResumer envC1 fileC1 "text" =
      .ok ⟨"CACHED",
        { isFromRAG := true, aiSummary := some "CACHED", similarDocuments := [],
          exactMatch := some true, matchedDocument := some ⟨3, "old.pdf", 9⟩ },
        { lookupCalls := 1, generateCalls := 1 }⟩ := by
  rfl

lemma processDocumentWithRAG_lookup_error {env : Env} {file : UploadedFile}
    {text : String} {s : Option String} {e : Err}
    (hen : env.ragEnabled = true)
    (hlk : env.getDocumentByHash (env.generateFileHash file.buffer) = .error e) :
    processDocumentWithRAG env file text s =
      (fallbackRagResult s e, { lookupCalls := 1 }) := by
  rw [processDocumentWithRAG, if_neg (by simp [hen]), hlk]

lemma processDocumentWithRAG_embed_error {env : Env} {file : UploadedFile}
    {text : String} {s : Option String} {e : Err}
    (hen : env.ragEnabled = true)
    (hlk : env.getDocumentByHash (env.generateFileHash file.buffer) = .ok none)
    (hemb : env.generateEmbedding text = .error e) :
    processDocumentWithRAG env file text s =
      (fallbackRagResult s e, { lookupCalls := 1, embedCalls := 1 }) := by
  rw [processDocumentWithRAG, if_neg (by simp [hen]), hlk, hemb]

lemma processDocumentWithRAG_phase {env : Env} {file : UploadedFile}
    {text : String} {s : Option String} {emb : List ℝ} {tS : Option ℝ} {mS : Option ℕ}
    (hen : env.ragEnabled = true)
    (hlk : env.getDocumentByHash (env.generateFileHash file.buffer) = .ok none)
    (hemb : env.generateEmbedding text = .ok emb)
    (htS : env.getRagSettingThreshold = .ok tS)
    (hmS : env.getRagSettingMaxDocs = .ok mS) :
    processDocumentWithRAG env file text s =
      processSimilarityPhase env file text s emb (env.generateFileHash file.buffer)
        (tS.getD env.SIMILARITY_THRESHOLD) (mS.getD env.MAX_SIMILAR_DOCUMENTS) := by
  rw [processDocumentWithRAG, if_neg (by simp [hen]), hlk, hemb, htS, hmS]

lemma processSimilarityPhase_insert_always_error (env : Env) (file : UploadedFile)
    (text s : String) (emb : List ℝ) (fh : String) (t : ℝ) (m : ℕ) (e : Err)
    (hins : ∀ nd, env.insertDocument nd = .error e) :
    processSimilarityPhase env file text (some s) emb fh t m =
      (fallbackRagResult (some s) e,
       { lookupCalls := 1, embedCalls := 1, scanCalls := 1, insertCalls := 1 }) := by
  simp only [processSimilarityPhase, processNoMatchPhase, hins]
  split
  all_goals first
  | rfl
  | (split <;> rfl)

lemma processSimilarityPhase_similar_insert_ok {env : Env} {file : UploadedFile}
    {text : String} {s : Option String} {emb : List ℝ} {fh : String} {t : ℝ} {m : ℕ}
    {best : SimilarityResult} {rest : List SimilarityResult} {did : ℕ}
    (hscan : findSimilarDocuments env emb t m = best :: rest)
    (hbest : t ≤ best.similarity_score)
    (hins : env.insertDocument
        ⟨file.originalname, fh, file.size, file.mimetype, text,
          "[Similar to: " ++ best.filename ++ "]" ++ "\n\n" ++ best.ai_summary,
          emb, env.EMBEDDING_MODEL⟩ = .ok did) :
    processSimilarityPhase env file text s emb fh t m =
      ({ isFromRAG := true, aiSummary := some best.ai_summary,
         similarDocuments := best :: rest, exactMatch := some false,
         bestMatch := some ⟨best.filename, best.similarity_score, best.created_at⟩ },
       { lookupCalls := 1, embedCalls := 1, scanCalls := 1, insertCalls := 1,
         insertedDocs := [⟨file.originalname, fh, file.size, file.mimetype, text,
           "[Similar to: " ++ best.filename ++ "]" ++ "\n\n" ++ best.ai_summary,
           emb, env.EMBEDDING_MODEL⟩] }) := by
  simp only [processSimilarityPhase, hscan]
  rw [if_pos hbest, hins]

/-- C3: with RAG enabled and non-empty extracted text, every cache-layer
failure still yields a usable result carrying the caller-supplied summary:
a hash-lookup error, an embedding error, or a storage error each lands in the
degraded fallback, and a similarity-search (candidate query) error degrades to
the direct-generation result. -/
theorem processDocumentWithRAG_degrades_on_cache_failure
    (env : Env) (file : UploadedFile) (text : String) (s : String)
    (htext : text ≠ "") (hen : env.ragEnabled = true) :
    (∀ e, env.getDocumentByHash (env.generateFileHash file.buffer) = .error e →
      (processDocumentWithRAG env file text (some s)).1 = fallbackRagResult (some s) e) ∧
    (∀ e, env.getDocumentByHash (env.generateFileHash file.buffer) = .ok none →
      env.generateEmbedding text = .error e →
      (processDocumentWithRAG env file text (some s)).1 = fallbackRagResult (some s) e) ∧
    (∀ e emb tS mS, env.getDocumentByHash (env.generateFileHash file.buffer) = .ok none →
      env.generateEmbedding text = .ok emb →
      env.getRagSettingThreshold = .ok tS → env.getRagSettingMaxDocs = .ok mS →
      (∀ nd, env.insertDocument nd = .error e) →
      (processDocumentWithRAG env file text (some s)).1 = fallbackRagResult (some s) e) ∧
    (∀ e emb tS mS, env.getDocumentByHash (env.generateFileHash file.buffer) = .ok none →
      env.generateEmbedding text = .ok emb →
      env.getRagSettingThreshold = .ok tS → env.getRagSettingMaxDocs = .ok mS →
      env.getAllDocuments = .error e →
      (processDocumentWithRAG env file text (some s)).1.aiSummary = some s ∧
        (processDocumentWithRAG env file text (some s)).1.isFromRAG = false) := by
  refine ⟨?_, ?_, ?_, ?_⟩
  · intro e hlk
    rw [processDocumentWithRAG_lookup_error hen hlk]
  · intro e hlk hemb
    rw [processDocumentWithRAG_embed_error hen hlk hemb]
  · intro e emb tS mS hlk hemb htS hmS hins
    rw [processDocumentWithRAG_phase hen hlk hemb htS hmS,
      processSimilarityPhase_insert_always_error env file text s emb _ _ _ e hins]
  · intro e emb tS mS hlk hemb htS hmS hga
    rw [processDocumentWithRAG_phase hen hlk hemb htS hmS]
    have hfs : findSimilarDocuments env emb (tS.getD env.SIMILARITY_THRESHOLD)
        (mS.getD env.MAX_SIMILAR_DOCUMENTS) = [] := by
      rw [findSimilarDocuments, hga]
    simp only [processSimilarityPhase, hfs, processNoMatchPhase]
    cases hi : env.insertDocument ⟨file.originalname, env.generateFileHash file.buffer,
        file.size, file.mimetype, text, s, emb, env.EMBEDDING_MODEL⟩ with
    | error e2 => simp [hi, fallbackRagResult]
    | ok did => simp [hi]

/-- Witness for C3: a concrete environment whose hash lookup always throws. -/
theorem processDocumentWithRAG_degrades_witness :
    ("doc" : String) ≠ "" ∧ envC3.ragEnabled = true ∧
    envC3.getDocumentByHash (envC3.generateFileHash fileW.buffer) = .error "db down" ∧
    (processDocumentWithRAG envC3 fileW "doc" (some "s")).1 =
      fallbackRagResult (some "s") "db down" :=
  ⟨by decide, rfl, rfl,
    (processDocumentWithRAG_degrades_on_cache_failure envC3 fileW "doc" "s"
      (by decide) rfl).1 "db down" rfl⟩

/-- C7 (amended): when every insert is rejected (the duplicate-hash race),
the orchestrator does not retry the hash lookup (`lookupCalls = 1`) and does
not return the winner's stored result: it returns the degraded fallback
carrying the locally generated summary plus the error annotation. -/
theorem processDocumentWithRAG_duplicate_insert_fallback
    (env : Env) (file : UploadedFile) (text s : String) (e : Err) (emb : List ℝ)
    (tS : Option ℝ) (mS : Option ℕ)
    (hen : env.ragEnabled = true)
    (hlk : env.getDocumentByHash (env.generateFileHash file.buffer) = .ok none)
    (hemb : env.generateEmbedding text = .ok emb)
    (htS : env.getRagSettingThreshold = .ok tS)
    (hmS : env.getRagSettingMaxDocs = .ok mS)
    (hins : ∀ nd, env.insertDocument nd = .error e) :
    processDocumentWithRAG env file text (some s) =
      (fallbackRagResult (some s) e,
       { lookupCalls := 1, embedCalls := 1, scanCalls := 1, insertCalls := 1 }) := by
  rw [processDocumentWithRAG_phase hen hlk hemb htS hmS,
    processSimilarityPhase_insert_always_error env file text s emb _ _ _ e hins]

/-- Witness for C7 (amended) at the concrete racing environment. -/
theorem processDocumentWithRAG_duplicate_insert_fallback_witness :
    envC7.ragEnabled = true ∧
    envC7.getDocumentByHash (envC7.generateFileHash fileW.buffer) = .ok none ∧
    envC7.generateEmbedding "text" = .ok [1] ∧
    envC7.getRagSettingThreshold = .ok none ∧
    envC7.getRagSettingMaxDocs = .ok none ∧
    (∀ nd, envC7.insertDocument nd = .error "ER_DUP_ENTRY") ∧
    processDocumentWithRAG envC7 fileW "text" (some "LOCAL") =
      (fallbackRagResult (some "LOCAL") "ER_DUP_ENTRY",
       { lookupCalls := 1, embedCalls := 1, scanCalls := 1, insertCalls := 1 }) :=
  ⟨rfl, rfl, rfl, rfl, rfl, fun _ => rfl,
    processDocumentWithRAG_duplicate_insert_fallback envC7 fileW "text" "LOCAL"
      "ER_DUP_ENTRY" [1] none none rfl rfl rfl rfl rfl (fun _ => rfl)⟩

/-- C7 (counterexample to the claim as stated): the winner row holding the
upload's hash and the stored result `"WINNER"` is in the table, the insert is
rejected by the uniqueness constraint, yet the orchestrator performs exactly
one hash lookup (no retry) and returns the local summary, not the winner's. -/
theorem processDocumentWithRAG_duplicate_no_retry_ce :
    envC7.getDocumentByHash (envC7.generateFileHash fileW.buffer) = .ok none ∧
    envC7.getAllDocuments = .ok [docC7] ∧
    docC7.file_hash = envC7.generateFileHash fileW.buffer ∧
    docC7.ai_summary = "WINNER" ∧
    (∀ nd, envC7.insertDocument nd = .error "ER_DUP_ENTRY") ∧
    processDocumentWithRAG envC7 fileW "text" (some "LOCAL") =
      (fallbackRagResult (some "LOCAL") "ER_DUP_ENTRY",
       { lookupCalls := 1, embedCalls := 1, scanCalls := 1, insertCalls := 1 }) ∧
    (processDocumentWithRAG envC7 fileW "text" (some "LOCAL")).1.aiSummary ≠
      some "WINNER" := by
  have heq : processDocumentWithRAG envC7 fileW "text" (some "LOCAL") =
      (fallbackRagResult (some "LOCAL") "ER_DUP_ENTRY",
       { lookupCalls := 1, embedCalls := 1, scanCalls := 1, insertCalls := 1 }) := by
    rw [@processDocumentWithRAG_phase envC7 fileW "text" (some "LOCAL") [1] none none
        rfl rfl rfl rfl rfl,
      processSimilarityPhase_insert_always_error envC7 fileW "text" "LOCAL" [1] _ _ _
        "ER_DUP_ENTRY" (fun _ => rfl)]
  refine ⟨rfl, rfl, rfl, rfl, fun _ => rfl, heq, ?_⟩
  rw [heq]
  simp [fallbackRagResult]

/-- C8: at most one document row is added per orchestrator invocation, and
exactly the branches the spec names insert: the similar-match and
no-match-with-summary outcomes add one row each (signalled by `bestMatch`
resp. `newDocumentId`), while the disabled, exact-match, needs-generation and
error outcomes add none. -/
theorem processDocumentWithRAG_at_most_one_insert (env : Env) (file : UploadedFile)
    (text : String) (s : Option String) :
    ((processDocumentWithRAG env file text s).2.insertedDocs).length ≤ 1 ∧
    (env.ragEnabled = false →
      (processDocumentWithRAG env file text s).2.insertedDocs = []) ∧
    ((processDocumentWithRAG env file text s).1.exactMatch = some true →
      (processDocumentWithRAG env file text s).2.insertedDocs = []) ∧
    ((processDocumentWithRAG env file text s).1.needsAiGeneration = some true →
      (processDocumentWithRAG env file text s).2.insertedDocs = []) ∧
    (∀ e, (processDocumentWithRAG env file text s).1.error = some e →
      (processDocumentWithRAG env file text s).2.insertedDocs = []) ∧
    (∀ bm, (processDocumentWithRAG env file text s).1.bestMatch = some bm →
      ((processDocumentWithRAG env file text s).2.insertedDocs).length = 1) ∧
    (∀ did, (processDocumentWithRAG env file text s).1.newDocumentId = some did →
      ((processDocumentWithRAG env file text s).2.insertedDocs).length = 1) := by
  simp only [processDocumentWithRAG, processSimilarityPhase, processNoMatchPhase]
  repeat' split
  all_goals simp_all [fallbackRagResult]

/-- Witness for C8 at a concrete disabled environment. -/
theorem processDocumentWithRAG_at_most_one_insert_witness :
    envC10.ragEnabled = false ∧
    (processDocumentWithRAG envC10 fileW "t" (some "s")).2.insertedDocs = [] :=
  ⟨rfl, (processDocumentWithRAG_at_most_one_insert envC10 fileW "t" (some "s")).2.1 rfl⟩

/-- C9: on a similar-but-not-exact match the inserted row's stored result is
exactly `"[Similar to: " ++ filename ++ "]"` followed by two newlines and the
matched result, while the result returned to the caller is the matched result
without that annotation. -/
theorem processDocumentWithRAG_similar_match_annotation
    (env : Env) (file : UploadedFile) (text : String) (s : Option String)
    (emb : List ℝ) (tS : Option ℝ) (mS : Option ℕ) (best : SimilarityResult)
    (rest : List SimilarityResult) (did : ℕ)
    (hen : env.ragEnabled = true)
    (hlk : env.getDocumentByHash (env.generateFileHash file.buffer) = .ok none)
    (hemb : env.generateEmbedding text = .ok emb)
    (htS : env.getRagSettingThreshold = .ok tS)
    (hmS : env.getRagSettingMaxDocs = .ok mS)
    (hscan : findSimilarDocuments env emb (tS.getD env.SIMILARITY_THRESHOLD)
        (mS.getD env.MAX_SIMILAR_DOCUMENTS) = best :: rest)
    (hbest : tS.getD env.SIMILARITY_THRESHOLD ≤ best.similarity_score)
    (hins : env.insertDocument
        ⟨file.originalname, env.generateFileHash file.buffer, file.size, file.mimetype,
          text, "[Similar to: " ++ best.filename ++ "]" ++ "\n\n" ++ best.ai_summary,
          emb, env.EMBEDDING_MODEL⟩ = .ok did) :
    (processDocumentWithRAG env file text s).2.insertedDocs =
      [⟨file.originalname, env.generateFileHash file.buffer, file.size, file.mimetype,
        text, "[Similar to: " ++ best.filename ++ "]" ++ "\n\n" ++ best.ai_summary,
        emb, env.EMBEDDING_MODEL⟩] ∧
    (processDocumentWithRAG env file text s).1.aiSummary = some best.ai_summary ∧
    (processDocumentWithRAG env file text s).1.isFromRAG = true := by
  rw [processDocumentWithRAG_phase hen hlk hemb htS hmS,
    processSimilarityPhase_similar_insert_ok hscan hbest hins]
  exact ⟨rfl, rfl, rfl⟩

/-- Witness for C9 at the concrete near-duplicate environment: the stored
embedding equals the query embedding (cosine similarity `1`), the annotated
row is inserted and the unannotated matched summary is returned. -/
theorem processDocumentWithRAG_similar_match_annotation_witness :
    envC9.ragEnabled = true ∧
    envC9.getDocumentByHash (envC9.generateFileHash fileW.buffer) = .ok none ∧
    envC9.generateEmbedding "text" = .ok [1, 0] ∧
    envC9.getRagSettingThreshold = .ok none ∧
    envC9.getRagSettingMaxDocs = .ok none ∧
    findSimilarDocuments envC9 [1, 0] ((none : Option ℝ).getD envC9.SIMILARITY_THRESHOLD)
      ((none : Option ℕ).getD envC9.MAX_SIMILAR_DOCUMENTS) =
        toSimilarityResult docC9 1 :: [] ∧
    (none : Option ℝ).getD envC9.SIMILARITY_THRESHOLD ≤
      (toSimilarityResult docC9 1).similarity_score ∧
    envC9.insertDocument
      ⟨fileW.originalname, envC9.generateFileHash fileW.buffer, fileW.size,
        fileW.mimetype, "text",
        "[Similar to: " ++ (toSimilarityResult docC9 1).filename ++ "]" ++ "\n\n" ++
          (toSimilarityResult docC9 1).ai_summary,
        [1, 0], envC9.EMBEDDING_MODEL⟩ = .ok 42 ∧
    ((processDocumentWithRAG envC9 fileW "text" none).2.insertedDocs =
      [⟨fileW.originalname, envC9.generateFileHash fileW.buffer, fileW.size,
        fileW.mimetype, "text",
        "[Similar to: " ++ (toSimilarityResult docC9 1).filename ++ "]" ++ "\n\n" ++
          (toSimilarityResult docC9 1).ai_summary,
        [1, 0], envC9.EMBEDDING_MODEL⟩] ∧
      (processDocumentWithRAG envC9 fileW "text" none).1.aiSummary =
        some (toSimilarityResult docC9 1).ai_summary ∧
      (processDocumentWithRAG envC9 fileW "text" none).1.isFromRAG = true) := by
  have hcos : calculateCosineSimilarity [1, 0] docC9.embedding = 1 := by
    have h1 : sumSq [1, 0] = 1 := by norm_num [sumSq]
    have hd : dotList ([1, 0] : List ℝ) [1, 0] = 1 := by norm_num [dotList]
    show calculateCosineSimilarity [1, 0] [1, 0] = 1
    rw [calculateCosineSimilarity, if_neg (by simp), if_neg (by simp [h1]), hd, h1,
      Real.sqrt_one]
    norm_num
  have hscan9 : findSimilarDocuments envC9 [1, 0] 0.85 5 =
      [toSimilarityResult docC9 1] := by
    rw [show findSimilarDocuments envC9 [1, 0] 0.85 5 =
        findSimilarCore [1, 0] 0.85 5 [docC9] from rfl, findSimilarCore,
      show sortByCreatedDesc [docC9] = [docC9] from rfl,
      scanDocs_cons_break [] (by rw [hcos]; norm_num) (by rw [hcos]; norm_num), hcos]
    rfl
  have hbest9 : (none : Option ℝ).getD envC9.SIMILARITY_THRESHOLD ≤
      (toSimilarityResult docC9 1).similarity_score := by
    show (0.85 : ℝ) ≤ 1
    norm_num
  refine ⟨rfl, rfl, rfl, rfl, rfl, hscan9, hbest9, rfl, ?_⟩
  exact processDocumentWithRAG_similar_match_annotation envC9 fileW "text" none
    [1, 0] none none (toSimilarityResult docC9 1) [] 42 rfl rfl rfl rfl rfl hscan9
    hbest9 rfl

/-- Witness for C4 at the concrete pair `[1, 0]`, `[0, 1]`. -/
theorem calculateCosineSimilarity_spec_witness :
    ([1, 0] : List ℝ).length = ([0, 1] : List ℝ).length ∧
    ((-1 ≤ calculateCosineSimilarity [1, 0] [0, 1] ∧
        calculateCosineSimilarity [1, 0] [0, 1] ≤ 1) ∧
      ((sumSq [1, 0] = 0 ∨ sumSq [0, 1] = 0) → calculateCosineSimilarity [1, 0] [0, 1] = 0) ∧
      (sumSq [1, 0] ≠ 0 → sumSq [0, 1] ≠ 0 →
        calculateCosineSimilarity [1, 0] [0, 1] =
          dotList [1, 0] [0, 1] / (Real.sqrt (sumSq [1, 0]) * Real.sqrt (sumSq [0, 1]))) ∧
      (∀ v : List ℝ, (∃ x ∈ v, x ≠ 0) → calculateCosineSimilarity v v = 1)) :=
  ⟨rfl, calculateCosineSimilarity_spec [1, 0] [0, 1] rfl⟩

end
